import Mathlib

/-!
Shallow embedding of `src/CANReader/main.cpp` (PolySync CAN reader example).

The file defines the data model (CAN frame, channel, node fields), the four
lifecycle handlers (`initStateEvent`, `okStateEvent`, `releaseStateEvent`,
`errorStateEvent`) as pure state-transformer functions over an explicit
environment that models the results of the external PolySync CAN library
calls, the host-driven lifecycle loop (`connectPolySync`), and the `main`
entry point including its `std::stoul` argument parsing.

External calls (channel allocation, `setBitRate`, `goOnBus`, `read`) either
succeed or throw a `DTCException`; the environment records, for each call,
which of the two happens and with which diagnostic code and message.
The handlers accumulate the lines written to standard output and a trace of
the external calls made.
-/

/-- A CAN frame: numeric identifier and payload length (DLC). -/
structure Frame where
  fid : Nat
  dlc : Nat
deriving Repr, DecidableEq

/-- Diagnostic trouble codes are opaque SDK enum values; only (in)equality
with `DTC_UNAVAILABLE` matters to this program. -/
abbrev Dtc := Nat

/-- The SDK code for "no data currently available" (opaque numeric value;
the program only compares diagnostic codes against it). -/
def DTC_UNAVAILABLE : Dtc := 7

/-- The open flag `PSYNC_CAN_OPEN_ALLOW_VIRTUAL` (opaque numeric value). -/
def PSYNC_CAN_OPEN_ALLOW_VIRTUAL : Nat := 1

/-- The bit rate `DATARATE_500K` of `ps_datarate_kind` (opaque numeric value). -/
def DATARATE_500K : Nat := 500

/-- Node state targets used by `activateFault`; only `NODE_STATE_ERROR` is
used by this program. -/
inductive PsNodeState where
  | NODE_STATE_OK
  | NODE_STATE_ERROR
deriving Repr, DecidableEq

/-- Model of a `polysync::CANChannel` object: identifier and flags it was
constructed with, the configured bit rate, whether it is on the bus, and the
last frame read (backing `getInputFrameId` / `getInputFramePayloadSize`). -/
structure CANChannel where
  channelID : Nat
  flags : Nat
  bitRate : Option Nat
  onBus : Bool
  lastFrame : Option Frame
deriving Repr, DecidableEq

/-- Accessor `getInputFrameId`: identifier of the last frame read. -/
def getInputFrameId (c : CANChannel) : Nat :=
  (c.lastFrame.map Frame.fid).getD 0

/-- Accessor `getInputFramePayloadSize`: payload length of the last frame read. -/
def getInputFramePayloadSize (c : CANChannel) : Nat :=
  (c.lastFrame.map Frame.dlc).getD 0

/-- The fields of the `CANReaderNode` C++ object: an owning (possibly null)
channel pointer and the constructor-initialized configuration. -/
structure CANReaderNode where
  channel : Option CANChannel
  channelID : Nat
  flags : Nat
  bitRate : Nat
deriving Repr, DecidableEq

/-- The `CANReaderNode( uint channelID )` constructor: member initializers
`_channel{nullptr}`, `_flags{PSYNC_CAN_OPEN_ALLOW_VIRTUAL}`,
`_bitRate{DATARATE_500K}`. -/
def mkCANReaderNode (channelID : Nat) : CANReaderNode :=
  { channel := none
    channelID := channelID
    flags := PSYNC_CAN_OPEN_ALLOW_VIRTUAL
    bitRate := DATARATE_500K }

/-- Trace events: the external SDK calls the node makes. -/
inductive Event where
  | openChannel (channelID flags : Nat)
  | setBitRateCall (rate : Nat)
  | goOnBusCall
  | readCall
  | goOffBusCall
  | activateFaultCall (dtc : Dtc) (target : PsNodeState)
  | disconnectCall
deriving Repr, DecidableEq

/-- Result of one external CAN-library call: success with a value, or a
thrown `DTCException` carrying a diagnostic code and a `what()` message. -/
inductive CanResult (α : Type) where
  | ok (a : α)
  | exn (dtc : Dtc) (msg : String)
deriving Repr, DecidableEq

/-- Environment: the behavior of the external CAN library during one run.
`readResults k` is the outcome of the `k`-th `read` call. -/
structure Env where
  allocResult : CanResult Unit
  bitRateResult : CanResult Unit
  onBusResult : CanResult Unit
  readResults : Nat → CanResult Frame

/-- Result of running one lifecycle handler: the updated node fields, the
lines printed to standard output, the trace of external calls, the fault
activated (if any), a `DTCException` that escaped the handler (if any), and
whether a null-pointer dereference occurred. -/
structure EffResult where
  node : CANReaderNode
  output : List String
  events : List Event
  fault : Option (Dtc × PsNodeState)
  escaped : Option (Dtc × String)
  crashed : Bool
deriving Repr, DecidableEq

/-- `CANReaderNode::initStateEvent`. Prints the banner, allocates the
channel with `new polysync::CANChannel( _channelID, _flags )` OUTSIDE the
`try` block (so an exception from the allocation escapes the handler), then
inside the `try` prints, calls `setBitRate( _bitRate )` and `goOnBus()`;
the `catch` prints "exception" and the exception message and calls
`activateFault( dtc, NODE_STATE_ERROR )`. -/
def initStateEvent (env : Env) (n : CANReaderNode) : EffResult :=
  let out0 := ["CANReaderNode::initStateEvent()"]
  match env.allocResult with
  | .exn d m =>
      { node := n
        output := out0
        events := [.openChannel n.channelID n.flags]
        fault := none
        escaped := some (d, m)
        crashed := false }
  | .ok _ =>
      let ch : CANChannel :=
        { channelID := n.channelID, flags := n.flags
          bitRate := none, onBus := false, lastFrame := none }
      let n1 : CANReaderNode := { n with channel := some ch }
      let out1 := out0 ++ ["before psync calls"]
      match env.bitRateResult with
      | .exn d m =>
          { node := n1
            output := out1 ++ ["exception", m]
            events := [.openChannel n.channelID n.flags,
                       .setBitRateCall n.bitRate,
                       .activateFaultCall d .NODE_STATE_ERROR]
            fault := some (d, .NODE_STATE_ERROR)
            escaped := none
            crashed := false }
      | .ok _ =>
          let ch1 : CANChannel := { ch with bitRate := some n.bitRate }
          let n2 : CANReaderNode := { n1 with channel := some ch1 }
          match env.onBusResult with
          | .exn d m =>
              { node := n2
                output := out1 ++ ["exception", m]
                events := [.openChannel n.channelID n.flags,
                           .setBitRateCall n.bitRate,
                           .goOnBusCall,
                           .activateFaultCall d .NODE_STATE_ERROR]
                fault := some (d, .NODE_STATE_ERROR)
                escaped := none
                crashed := false }
          | .ok _ =>
              let ch2 : CANChannel := { ch1 with onBus := true }
              { node := { n2 with channel := some ch2 }
                output := out1 ++ ["after psync calls"]
                events := [.openChannel n.channelID n.flags,
                           .setBitRateCall n.bitRate,
                           .goOnBusCall]
                fault := none
                escaped := none
                crashed := false }

/-- `CANReaderNode::okStateEvent` with `r` the outcome of this tick's
`read`. `_channel->read()` dereferences `_channel` with no null check: when
the handle is null the handler crashes. On success it prints
`"CAN frame - ID: 0x" << _channel->getInputFrameId()` (the identifier in
DECIMAL after the literal "0x", since no `std::hex` manipulator is applied)
and `"DLC: " << _channel->getInputFramePayloadSize()`. On a `DTCException`
it does nothing if the code is `DTC_UNAVAILABLE`, otherwise prints the
message and calls `activateFault( dtc, NODE_STATE_ERROR )`. -/
def okStateEvent (r : CanResult Frame) (n : CANReaderNode) : EffResult :=
  match n.channel with
  | none =>
      { node := n, output := [], events := [], fault := none
        escaped := none, crashed := true }
  | some ch =>
      match r with
      | .ok f =>
          let ch1 : CANChannel := { ch with lastFrame := some f }
          { node := { n with channel := some ch1 }
            output := ["CAN frame - ID: 0x" ++ Nat.repr (getInputFrameId ch1),
                       "DLC: " ++ Nat.repr (getInputFramePayloadSize ch1)]
            events := [.readCall]
            fault := none
            escaped := none
            crashed := false }
      | .exn d m =>
          if d ≠ DTC_UNAVAILABLE then
            { node := n
              output := [m]
              events := [.readCall, .activateFaultCall d .NODE_STATE_ERROR]
              fault := some (d, .NODE_STATE_ERROR)
              escaped := none
              crashed := false }
          else
            { node := n
              output := []
              events := [.readCall]
              fault := none
              escaped := none
              crashed := false }

/-- `CANReaderNode::releaseStateEvent`: prints the banner; if `_channel` is
non-null, takes it off the bus, deletes it and sets the pointer to null;
otherwise does nothing further. -/
def releaseStateEvent (n : CANReaderNode) : EffResult :=
  let out0 := ["CANReaderNode::releaseStateEvent()"]
  match n.channel with
  | some _ =>
      { node := { n with channel := none }
        output := out0
        events := [.goOffBusCall]
        fault := none
        escaped := none
        crashed := false }
  | none =>
      { node := n, output := out0, events := [], fault := none
        escaped := none, crashed := false }

/-- `CANReaderNode::errorStateEvent`: prints the banner and calls
`disconnectPolySync()`, which makes the host trigger the release path. -/
def errorStateEvent (n : CANReaderNode) : EffResult :=
  { node := n
    output := ["CANReaderNode::errorStateEvent()"]
    events := [.disconnectCall]
    fault := none
    escaped := none
    crashed := false }

/-- Result of the host-driven polling loop over `okStateEvent`. -/
structure LoopResult where
  node : CANReaderNode
  output : List String
  events : List Event
  fault : Option (Dtc × PsNodeState)
  crashed : Bool
deriving Repr, DecidableEq

/-- The host runtime's polling loop: starting at read index `k`, call
`okStateEvent` up to `t` times; stop early when a fault is activated (the
host then transitions to the error state) or the handler crashes. -/
def okLoop (env : Env) : Nat → Nat → CANReaderNode → LoopResult
  | _, 0, n => { node := n, output := [], events := [], fault := none, crashed := false }
  | k, t + 1, n =>
      let r := okStateEvent (env.readResults k) n
      if r.crashed then
        { node := r.node, output := r.output, events := r.events
          fault := none, crashed := true }
      else
        match r.fault with
        | some f =>
            { node := r.node, output := r.output, events := r.events
              fault := some f, crashed := false }
        | none =>
            let rest := okLoop env (k + 1) t r.node
            { node := rest.node
              output := r.output ++ rest.output
              events := r.events ++ rest.events
              fault := rest.fault
              crashed := rest.crashed }

/-- Result of a whole node run under `connectPolySync`. -/
structure RunResult where
  node : CANReaderNode
  output : List String
  events : List Event
  escaped : Option (Dtc × String)
  crashed : Bool
deriving Repr, DecidableEq

/-- The host lifecycle driven by `connectPolySync`: `initStateEvent` once;
if a `DTCException` escapes it, the exception propagates out of
`connectPolySync`; if it activated a fault targeting `NODE_STATE_ERROR`,
run `errorStateEvent` (whose `disconnectPolySync` triggers
`releaseStateEvent`); otherwise poll `okStateEvent` for `ticks` ticks (the
external schedule until SIGINT), entering the same error-then-release path
if a poll activates a fault, and the plain release path on shutdown. -/
def connectPolySync (env : Env) (ticks : Nat) (n : CANReaderNode) : RunResult :=
  let ri := initStateEvent env n
  match ri.escaped with
  | some e =>
      { node := ri.node, output := ri.output, events := ri.events
        escaped := some e, crashed := false }
  | none =>
      match ri.fault with
      | some _ =>
          let re := errorStateEvent ri.node
          let rr := releaseStateEvent re.node
          { node := rr.node
            output := ri.output ++ re.output ++ rr.output
            events := ri.events ++ re.events ++ rr.events
            escaped := none
            crashed := false }
      | none =>
          let lp := okLoop env 0 ticks ri.node
          if lp.crashed then
            { node := lp.node, output := ri.output ++ lp.output
              events := ri.events ++ lp.events, escaped := none, crashed := true }
          else
            match lp.fault with
            | some _ =>
                let re := errorStateEvent lp.node
                let rr := releaseStateEvent re.node
                { node := rr.node
                  output := ri.output ++ lp.output ++ re.output ++ rr.output
                  events := ri.events ++ lp.events ++ re.events ++ rr.events
                  escaped := none
                  crashed := false }
            | none =>
                let rr := releaseStateEvent lp.node
                { node := rr.node
                  output := ri.output ++ lp.output ++ rr.output
                  events := ri.events ++ lp.events ++ rr.events
                  escaped := none
                  crashed := false }

/-- Errors thrown by `std::stoul`. -/
inductive StoulError where
  | invalid_argument
  | out_of_range
deriving Repr, DecidableEq

/-- `ULONG_MAX` on the usual 64-bit platform. -/
def ULONG_MAX : Nat := 2 ^ 64 - 1

/-- Value of a list of decimal digit characters. -/
def digitsToNat (cs : List Char) : Nat :=
  cs.foldl (fun acc c => acc * 10 + (c.toNat - 48)) 0

/-- `std::stoul(s)` with the default base 10: skip leading whitespace, accept
an optional sign, then the longest run of decimal digits (any trailing
characters are ignored); throw `invalid_argument` when there is no digit,
`out_of_range` when the magnitude exceeds `ULONG_MAX`; a minus sign negates
the value in `unsigned long` arithmetic, i.e. modulo `2 ^ 64`. -/
def stoul (s : String) : Except StoulError Nat :=
  let cs := s.data.dropWhile Char.isWhitespace
  let signed : Bool × List Char :=
    match cs with
    | '-' :: rest => (true, rest)
    | '+' :: rest => (false, rest)
    | _ => (false, cs)
  let digits := signed.2.takeWhile Char.isDigit
  if digits.isEmpty then .error .invalid_argument
  else
    let v := digitsToNat digits
    if v > ULONG_MAX then .error .out_of_range
    else if signed.1 then .ok ((2 ^ 64 - v % 2 ^ 64) % 2 ^ 64)
    else .ok v

/-- The two lines printed by the `catch` branch of `main`. -/
def invalidArgMsg : List String :=
  ["Invalid argument. This example requires valid integer input representing a CAN channel.",
   "For example: polysync-can-reader-cpp 1"]

/-- The two lines printed by the `else` (no argument) branch of `main`. -/
def mustPassMsg : List String :=
  ["Must pass CAN channel argument.",
   "For example: polysync-can-reader-cpp 1"]

/-- Host-side environment for a `main` invocation: the CAN library behavior,
the number of ok-state polls before external shutdown, and whether
`setNodeName` throws (with the exception message) — `setNodeName` talks to
the host runtime and sits inside `main`'s `try` block. -/
structure HostEnv where
  canEnv : Env
  ticks : Nat
  setNodeNameResult : Option String

/-- Result of a `main` invocation: the exit code (`none` models abnormal
termination by a crash inside the run), the printed output, and the node
run when one was started. -/
structure MainResult where
  exitCode : Option Nat
  output : List String
  run : Option RunResult

/-- `main( argc, argv )`: with no argument (argc ≤ 1) print the usage hint
and return 1. Otherwise, inside a `try`: parse `argv[1]` with `std::stoul`,
construct the node (the `uint channelID` parameter narrows the
`unsigned long` modulo `2 ^ 32`), call `setNodeName` and `connectPolySync`;
any `std::exception` escaping these (including `std::invalid_argument` /
`std::out_of_range` from `stoul` and a `DTCException` escaping
`connectPolySync`) is caught, the invalid-argument message printed, and 1
returned. Return 0 after the `try` completes normally. -/
def mainFn (argv : List String) (henv : HostEnv) : MainResult :=
  match argv[1]? with
  | none =>
      { exitCode := some 1, output := mustPassMsg, run := none }
  | some a =>
      match stoul a with
      | .error _ =>
          { exitCode := some 1, output := invalidArgMsg, run := none }
      | .ok v =>
          let node := mkCANReaderNode (v % 2 ^ 32)
          match henv.setNodeNameResult with
          | some _ =>
              { exitCode := some 1, output := invalidArgMsg, run := none }
          | none =>
              let rr := connectPolySync henv.canEnv henv.ticks node
              match rr.escaped with
              | some _ =>
                  { exitCode := some 1, output := rr.output ++ invalidArgMsg
                    run := some rr }
              | none =>
                  if rr.crashed then
                    { exitCode := none, output := rr.output, run := some rr }
                  else
                    { exitCode := some 0, output := rr.output, run := some rr }

/-- Whether an event is a channel-open call. -/
def isOpenEvent : Event → Bool
  | .openChannel _ _ => true
  | _ => false

/-- Whether an event is a read call. -/
def isReadEvent : Event → Bool
  | .readCall => true
  | _ => false

/-- Whether an event is a fault activation. -/
def isFaultEvent : Event → Bool
  | .activateFaultCall _ _ => true
  | _ => false

/-- Does `l` start with `sub` (character lists)? -/
def startsWithChars : List Char → List Char → Bool
  | [], _ => true
  | _ :: _, [] => false
  | a :: as, b :: bs => a = b && startsWithChars as bs

/-- Does `l` contain `sub` as a contiguous run (character lists)? -/
def containsChars : List Char → List Char → Bool
  | sub, [] => startsWithChars sub []
  | sub, c :: cs => startsWithChars sub (c :: cs) || containsChars sub cs

/-- Does string `s` contain `sub` as a substring? -/
def strContains (s sub : String) : Bool :=
  containsChars sub.data s.data

/-! ### Concrete environments used as witnesses -/

/-- Environment in which every CAN call succeeds and every read reports
"no data available". -/
def quietEnv : Env :=
  { allocResult := .ok (), bitRateResult := .ok (), onBusResult := .ok ()
    readResults := fun _ => .exn DTC_UNAVAILABLE "resource unavailable" }

/-- Environment in which the channel allocation itself throws. -/
def allocFailEnv : Env :=
  { allocResult := .exn 5 "failed to open CAN channel"
    bitRateResult := .ok (), onBusResult := .ok ()
    readResults := fun _ => .exn DTC_UNAVAILABLE "resource unavailable" }

/-- Environment in which `setBitRate` throws. -/
def bitRateFailEnv : Env :=
  { allocResult := .ok (), bitRateResult := .exn 9 "bit rate rejected"
    onBusResult := .ok ()
    readResults := fun _ => .exn DTC_UNAVAILABLE "resource unavailable" }

/-- Environment in which `goOnBus` throws. -/
def onBusFailEnv : Env :=
  { allocResult := .ok (), bitRateResult := .ok ()
    onBusResult := .exn 6 "cannot go on bus"
    readResults := fun _ => .exn DTC_UNAVAILABLE "resource unavailable" }

/-- Host environment in which nothing outside the CAN calls throws. -/
def quietHost : HostEnv :=
  { canEnv := quietEnv, ticks := 0, setNodeNameResult := none }

/-- Host environment in which `setNodeName` throws. -/
def throwingHost : HostEnv :=
  { canEnv := quietEnv, ticks := 1, setNodeNameResult := some "node name rejected" }

/-! ### Helper lemmas about the handlers and the lifecycle loop -/

theorem okStateEvent_unavailable (m : String) (n : CANReaderNode) (ch : CANChannel)
    (h : n.channel = some ch) :
    okStateEvent (CanResult.exn DTC_UNAVAILABLE m) n =
      { node := n, output := [], events := [Event.readCall],
        fault := none, escaped := none, crashed := false } := by
  simp [okStateEvent, h]

theorem okStateEvent_fatal (d : Dtc) (m : String) (n : CANReaderNode) (ch : CANChannel)
    (h : n.channel = some ch) (hd : d ≠ DTC_UNAVAILABLE) :
    okStateEvent (CanResult.exn d m) n =
      { node := n, output := [m],
        events := [Event.readCall, Event.activateFaultCall d PsNodeState.NODE_STATE_ERROR],
        fault := some (d, PsNodeState.NODE_STATE_ERROR), escaped := none, crashed := false } := by
  simp [okStateEvent, h, hd]

theorem okStateEvent_crashed_iff (r : CanResult Frame) (n : CANReaderNode) :
    (okStateEvent r n).crashed = true ↔ n.channel = none := by
  cases h : n.channel with
  | none => simp [okStateEvent, h]
  | some ch =>
      cases r with
      | ok f => simp [okStateEvent, h]
      | exn d m => by_cases hd : d = DTC_UNAVAILABLE <;> simp [okStateEvent, h, hd]

theorem okStateEvent_channel_isSome (r : CanResult Frame) (n : CANReaderNode)
    (h : n.channel.isSome = true) :
    (okStateEvent r n).node.channel.isSome = true ∧ (okStateEvent r n).crashed = false := by
  cases hn : n.channel with
  | none => rw [hn] at h; simp at h
  | some ch =>
      cases r with
      | ok f => simp [okStateEvent, hn]
      | exn d m => by_cases hd : d = DTC_UNAVAILABLE <;> simp [okStateEvent, hn, hd]

theorem okStateEvent_events_shape (r : CanResult Frame) (n : CANReaderNode) :
    ∀ e ∈ (okStateEvent r n).events,
      e = Event.readCall ∨ ∃ d, e = Event.activateFaultCall d PsNodeState.NODE_STATE_ERROR := by
  intro e he
  cases hn : n.channel with
  | none => rw [okStateEvent] at he; simp [hn] at he
  | some ch =>
      cases r with
      | ok f =>
          rw [okStateEvent] at he; simp [hn] at he; simp [he]
      | exn d m =>
          rw [okStateEvent] at he
          by_cases hd : d = DTC_UNAVAILABLE <;> simp [hn, hd] at he
          · simp [he]
          · rcases he with h1 | h1 <;> simp [h1]

theorem okLoop_events_shape (env : Env) (t : Nat) :
    ∀ k n, ∀ e ∈ (okLoop env k t n).events,
      e = Event.readCall ∨ ∃ d, e = Event.activateFaultCall d PsNodeState.NODE_STATE_ERROR := by
  induction t with
  | zero => intro k n e he; simp [okLoop] at he
  | succ t ih =>
      intro k n e he
      rw [okLoop] at he
      split at he
      · exact okStateEvent_events_shape _ _ e he
      · split at he
        · exact okStateEvent_events_shape _ _ e he
        · rcases List.mem_append.1 he with h1 | h2
          · exact okStateEvent_events_shape _ _ e h1
          · exact ih (k + 1) _ e h2

theorem okLoop_countP_zero (p : Event → Bool)
    (hp1 : p Event.readCall = false)
    (hp2 : ∀ d, p (Event.activateFaultCall d PsNodeState.NODE_STATE_ERROR) = false)
    (env : Env) (t k : Nat) (n : CANReaderNode) :
    (okLoop env k t n).events.countP p = 0 := by
  rw [List.countP_eq_zero]
  intro e he
  rcases okLoop_events_shape env t k n e he with h | ⟨d, h⟩ <;> subst h <;> simp [hp1, hp2]

theorem okLoop_channel_isSome (env : Env) (t : Nat) :
    ∀ k n, n.channel.isSome = true →
      (okLoop env k t n).node.channel.isSome = true ∧ (okLoop env k t n).crashed = false := by
  induction t with
  | zero => intro k n h; simpa [okLoop] using h
  | succ t ih =>
      intro k n h
      have hs := okStateEvent_channel_isSome (env.readResults k) n h
      rw [okLoop, hs.2]
      simp only [Bool.false_eq_true, if_false]
      cases hf : (okStateEvent (env.readResults k) n).fault with
      | some f => simpa using hs.1
      | none => simpa using ih (k + 1) _ hs.1

theorem okLoop_unavailable (env : Env) (t : Nat) :
    ∀ k n ch, n.channel = some ch →
      (∀ j, j < t → ∃ m, env.readResults (k + j) = CanResult.exn DTC_UNAVAILABLE m) →
      okLoop env k t n =
        { node := n, output := [], events := List.replicate t Event.readCall,
          fault := none, crashed := false } := by
  induction t with
  | zero => intro k n ch h hr; simp [okLoop]
  | succ t ih =>
      intro k n ch h hr
      obtain ⟨m, hm⟩ := hr 0 (Nat.succ_pos t)
      rw [Nat.add_zero] at hm
      have hstep := okStateEvent_unavailable m n ch h
      have hrec := ih (k + 1) n ch h (fun j hj => by
        obtain ⟨mj, hmj⟩ := hr (j + 1) (Nat.succ_lt_succ hj)
        have harith : k + (j + 1) = k + 1 + j := by omega
        exact ⟨mj, by rw [← harith]; exact hmj⟩)
      rw [okLoop, hm, hstep]
      simp [hrec, List.replicate_succ]

/-- The channel object as freshly allocated for node `n`. -/
def freshChannel (n : CANReaderNode) : CANChannel :=
  { channelID := n.channelID, flags := n.flags
    bitRate := none, onBus := false, lastFrame := none }

theorem initStateEvent_allocFail (env : Env) (n : CANReaderNode) (d : Dtc) (m : String)
    (h : env.allocResult = CanResult.exn d m) :
    initStateEvent env n =
      { node := n, output := ["CANReaderNode::initStateEvent()"],
        events := [Event.openChannel n.channelID n.flags],
        fault := none, escaped := some (d, m), crashed := false } := by
  simp [initStateEvent, h]

theorem initStateEvent_bitRateFail (env : Env) (n : CANReaderNode) (d : Dtc) (m : String)
    (h1 : env.allocResult = CanResult.ok ())
    (h2 : env.bitRateResult = CanResult.exn d m) :
    initStateEvent env n =
      { node := { n with channel := some (freshChannel n) },
        output := ["CANReaderNode::initStateEvent()", "before psync calls", "exception", m],
        events := [Event.openChannel n.channelID n.flags,
                   Event.setBitRateCall n.bitRate,
                   Event.activateFaultCall d PsNodeState.NODE_STATE_ERROR],
        fault := some (d, PsNodeState.NODE_STATE_ERROR), escaped := none,
        crashed := false } := by
  simp [initStateEvent, h1, h2, freshChannel]

theorem initStateEvent_onBusFail (env : Env) (n : CANReaderNode) (d : Dtc) (m : String)
    (h1 : env.allocResult = CanResult.ok ())
    (h2 : env.bitRateResult = CanResult.ok ())
    (h3 : env.onBusResult = CanResult.exn d m) :
    initStateEvent env n =
      { node := { n with channel := some ({ freshChannel n with bitRate := some n.bitRate }) },
        output := ["CANReaderNode::initStateEvent()", "before psync calls", "exception", m],
        events := [Event.openChannel n.channelID n.flags,
                   Event.setBitRateCall n.bitRate,
                   Event.goOnBusCall,
                   Event.activateFaultCall d PsNodeState.NODE_STATE_ERROR],
        fault := some (d, PsNodeState.NODE_STATE_ERROR), escaped := none,
        crashed := false } := by
  simp [initStateEvent, h1, h2, h3, freshChannel]

theorem initStateEvent_ok (env : Env) (n : CANReaderNode)
    (h1 : env.allocResult = CanResult.ok ())
    (h2 : env.bitRateResult = CanResult.ok ())
    (h3 : env.onBusResult = CanResult.ok ()) :
    initStateEvent env n =
      { node := { n with
                  channel := some ({ freshChannel n with
                                     bitRate := some n.bitRate, onBus := true }) },
        output := ["CANReaderNode::initStateEvent()", "before psync calls", "after psync calls"],
        events := [Event.openChannel n.channelID n.flags,
                   Event.setBitRateCall n.bitRate,
                   Event.goOnBusCall],
        fault := none, escaped := none, crashed := false } := by
  simp [initStateEvent, h1, h2, h3, freshChannel]

theorem releaseStateEvent_channel_none (n : CANReaderNode) :
    (releaseStateEvent n).node.channel = none := by
  cases h : n.channel <;> simp [releaseStateEvent, h]

theorem releaseStateEvent_held (n : CANReaderNode) (ch : CANChannel)
    (h : n.channel = some ch) :
    releaseStateEvent n =
      { node := { n with channel := none },
        output := ["CANReaderNode::releaseStateEvent()"],
        events := [Event.goOffBusCall], fault := none, escaped := none,
        crashed := false } := by
  simp [releaseStateEvent, h]

theorem releaseStateEvent_empty (n : CANReaderNode)
    (h : n.channel = none) :
    releaseStateEvent n =
      { node := n, output := ["CANReaderNode::releaseStateEvent()"],
        events := [], fault := none, escaped := none, crashed := false } := by
  simp [releaseStateEvent, h]

/-- The channel object as it stands after a fully successful initialization
of a freshly constructed node for channel `id`. -/
def readyChannel (id : Nat) : CANChannel :=
  { channelID := id, flags := PSYNC_CAN_OPEN_ALLOW_VIRTUAL,
    bitRate := some DATARATE_500K, onBus := true, lastFrame := none }

/-- The node as it stands after a fully successful initialization. -/
def readyNode (id : Nat) : CANReaderNode :=
  { channel := some (readyChannel id), channelID := id,
    flags := PSYNC_CAN_OPEN_ALLOW_VIRTUAL, bitRate := DATARATE_500K }

theorem initStateEvent_ok_mk (env : Env) (id : Nat)
    (h1 : env.allocResult = CanResult.ok ())
    (h2 : env.bitRateResult = CanResult.ok ())
    (h3 : env.onBusResult = CanResult.ok ()) :
    initStateEvent env (mkCANReaderNode id) =
      { node := readyNode id,
        output := ["CANReaderNode::initStateEvent()", "before psync calls", "after psync calls"],
        events := [Event.openChannel id PSYNC_CAN_OPEN_ALLOW_VIRTUAL,
                   Event.setBitRateCall DATARATE_500K,
                   Event.goOnBusCall],
        fault := none, escaped := none, crashed := false } := by
  simp [initStateEvent, h1, h2, h3, mkCANReaderNode, readyNode, readyChannel]

theorem connect_allocFail (env : Env) (ticks id : Nat) (d : Dtc) (m : String)
    (h : env.allocResult = CanResult.exn d m) :
    connectPolySync env ticks (mkCANReaderNode id) =
      { node := mkCANReaderNode id,
        output := ["CANReaderNode::initStateEvent()"],
        events := [Event.openChannel id PSYNC_CAN_OPEN_ALLOW_VIRTUAL],
        escaped := some (d, m), crashed := false } := by
  rw [connectPolySync, initStateEvent_allocFail env _ d m h]
  simp [mkCANReaderNode]

theorem connect_bitRateFail (env : Env) (ticks id : Nat) (d : Dtc) (m : String)
    (h1 : env.allocResult = CanResult.ok ())
    (h2 : env.bitRateResult = CanResult.exn d m) :
    connectPolySync env ticks (mkCANReaderNode id) =
      { node := mkCANReaderNode id,
        output := ["CANReaderNode::initStateEvent()", "before psync calls", "exception", m,
                   "CANReaderNode::errorStateEvent()", "CANReaderNode::releaseStateEvent()"],
        events := [Event.openChannel id PSYNC_CAN_OPEN_ALLOW_VIRTUAL,
                   Event.setBitRateCall DATARATE_500K,
                   Event.activateFaultCall d PsNodeState.NODE_STATE_ERROR,
                   Event.disconnectCall, Event.goOffBusCall],
        escaped := none, crashed := false } := by
  rw [connectPolySync, initStateEvent_bitRateFail env _ d m h1 h2]
  simp [errorStateEvent, releaseStateEvent, mkCANReaderNode, freshChannel]

theorem connect_onBusFail (env : Env) (ticks id : Nat) (d : Dtc) (m : String)
    (h1 : env.allocResult = CanResult.ok ())
    (h2 : env.bitRateResult = CanResult.ok ())
    (h3 : env.onBusResult = CanResult.exn d m) :
    connectPolySync env ticks (mkCANReaderNode id) =
      { node := mkCANReaderNode id,
        output := ["CANReaderNode::initStateEvent()", "before psync calls", "exception", m,
                   "CANReaderNode::errorStateEvent()", "CANReaderNode::releaseStateEvent()"],
        events := [Event.openChannel id PSYNC_CAN_OPEN_ALLOW_VIRTUAL,
                   Event.setBitRateCall DATARATE_500K,
                   Event.goOnBusCall,
                   Event.activateFaultCall d PsNodeState.NODE_STATE_ERROR,
                   Event.disconnectCall, Event.goOffBusCall],
        escaped := none, crashed := false } := by
  rw [connectPolySync, initStateEvent_onBusFail env _ d m h1 h2 h3]
  simp [errorStateEvent, releaseStateEvent, mkCANReaderNode, freshChannel]

theorem connect_ok_events (env : Env) (ticks id : Nat)
    (h1 : env.allocResult = CanResult.ok ())
    (h2 : env.bitRateResult = CanResult.ok ())
    (h3 : env.onBusResult = CanResult.ok ()) :
    ∃ tail,
      (connectPolySync env ticks (mkCANReaderNode id)).events
        = [Event.openChannel id PSYNC_CAN_OPEN_ALLOW_VIRTUAL,
           Event.setBitRateCall DATARATE_500K,
           Event.goOnBusCall]
          ++ (okLoop env 0 ticks (readyNode id)).events ++ tail
      ∧ tail.countP isOpenEvent = 0
      ∧ (∀ r, Event.setBitRateCall r ∉ tail) := by
  rw [connectPolySync, initStateEvent_ok_mk env id h1 h2 h3]
  have hloop := okLoop_channel_isSome env ticks 0 (readyNode id) (by simp [readyNode])
  simp only [hloop.2, Bool.false_eq_true, if_false]
  obtain ⟨ch, hch⟩ := Option.isSome_iff_exists.1 hloop.1
  cases hf : (okLoop env 0 ticks (readyNode id)).fault with
  | some f =>
      refine ⟨[Event.disconnectCall, Event.goOffBusCall], ?_, ?_, ?_⟩
      · simp [hf, errorStateEvent, releaseStateEvent_held _ ch hch]
      · simp [isOpenEvent]
      · intro r; simp
  | none =>
      refine ⟨[Event.goOffBusCall], ?_, ?_, ?_⟩
      · simp [hf, releaseStateEvent_held _ ch hch]
      · simp [isOpenEvent]
      · intro r; simp

/-- After a complete lifecycle run started from a freshly constructed node,
the channel handle is cleared and no crash occurred: `okStateEvent` is only
ever polled while the handle is non-null. -/
theorem connect_channel_clear (env : Env) (ticks id : Nat) :
    (connectPolySync env ticks (mkCANReaderNode id)).node.channel = none ∧
    (connectPolySync env ticks (mkCANReaderNode id)).crashed = false := by
  cases ha : env.allocResult with
  | exn d m =>
      rw [connectPolySync, initStateEvent_allocFail env _ d m ha]
      simp [mkCANReaderNode]
  | ok a =>
      cases a
      cases hb : env.bitRateResult with
      | exn d m =>
          rw [connectPolySync, initStateEvent_bitRateFail env _ d m ha hb]
          simp [releaseStateEvent_channel_none]
      | ok b =>
          cases b
          cases hc : env.onBusResult with
          | exn d m =>
              rw [connectPolySync, initStateEvent_onBusFail env _ d m ha hb hc]
              simp [releaseStateEvent_channel_none]
          | ok c =>
              cases c
              rw [connectPolySync, initStateEvent_ok env _ ha hb hc]
              have hloop := okLoop_channel_isSome env ticks 0
                { mkCANReaderNode id with
                  channel := some ({ freshChannel (mkCANReaderNode id) with
                                     bitRate := some (mkCANReaderNode id).bitRate,
                                     onBus := true }) }
                (by simp)
              simp only [hloop.2, Bool.false_eq_true, if_false]
              cases hf : (okLoop env 0 ticks _).fault <;>
                simp [releaseStateEvent_channel_none]

theorem initStateEvent_channel_isSome (env : Env) (n : CANReaderNode)
    (h1 : env.allocResult = CanResult.ok ()) :
    (initStateEvent env n).node.channel.isSome = true := by
  cases hb : env.bitRateResult with
  | exn d m => rw [initStateEvent_bitRateFail env n d m h1 hb]; simp
  | ok b =>
      cases b
      cases hc : env.onBusResult with
      | exn d m => rw [initStateEvent_onBusFail env n d m h1 hb hc]; simp
      | ok c => cases c; rw [initStateEvent_ok env n h1 hb hc]; simp

theorem connect_output_ext (env : Env) (ticks : Nat) (n : CANReaderNode) :
    ∃ t, (connectPolySync env ticks n).output = (initStateEvent env n).output ++ t := by
  rw [connectPolySync]
  generalize initStateEvent env n = ri
  obtain ⟨nd, out, evs, fl, esc, cr⟩ := ri
  cases esc with
  | some e => exact ⟨[], by simp⟩
  | none =>
      cases fl with
      | some f =>
          refine ⟨(errorStateEvent nd).output
                    ++ (releaseStateEvent (errorStateEvent nd).node).output, ?_⟩
          simp
      | none =>
          cases hcr : (okLoop env 0 ticks nd).crashed with
          | true =>
              refine ⟨(okLoop env 0 ticks nd).output, ?_⟩
              simp [hcr]
          | false =>
              cases hf : (okLoop env 0 ticks nd).fault with
              | some f =>
                  refine ⟨(okLoop env 0 ticks nd).output
                            ++ (errorStateEvent (okLoop env 0 ticks nd).node).output
                            ++ (releaseStateEvent
                                  (errorStateEvent (okLoop env 0 ticks nd).node).node).output, ?_⟩
                  simp [hcr, hf]
              | none =>
                  refine ⟨(okLoop env 0 ticks nd).output
                            ++ (releaseStateEvent (okLoop env 0 ticks nd).node).output, ?_⟩
                  simp [hcr, hf]

theorem initStateEvent_output_cons (env : Env) (n : CANReaderNode) :
    ∃ rest, (initStateEvent env n).output
              = "CANReaderNode::initStateEvent()" :: rest := by
  cases ha : env.allocResult with
  | exn d m => exact ⟨_, by rw [initStateEvent_allocFail env n d m ha]⟩
  | ok a =>
      cases a
      cases hb : env.bitRateResult with
      | exn d m => exact ⟨_, by rw [initStateEvent_bitRateFail env n d m ha hb]⟩
      | ok b =>
          cases b
          cases hc : env.onBusResult with
          | exn d m => exact ⟨_, by rw [initStateEvent_onBusFail env n d m ha hb hc]⟩
          | ok c => exact ⟨_, by cases c; rw [initStateEvent_ok env n ha hb hc]⟩

theorem connect_output_head (env : Env) (ticks : Nat) (n : CANReaderNode) :
    (connectPolySync env ticks n).output.head?
      = some "CANReaderNode::initStateEvent()" := by
  obtain ⟨t, ht⟩ := connect_output_ext env ticks n
  obtain ⟨rest, hr⟩ := initStateEvent_output_cons env n
  rw [ht, hr]
  rfl

/-! ### Claims -/

/-- Claim C1 (code bug). The spec says the frame identifier is printed in
hexadecimal, so a successful read of a frame with identifier 0x123 and
payload length 4 should produce output containing "0x123" and "4". The code
streams the identifier through `operator<<` in its default decimal mode
after the literal "0x" (no `std::hex` manipulator): the line printed for
that frame is "CAN frame - ID: 0x291" (291 is 0x123 in decimal), which does
not contain "0x123". The payload length is printed in decimal, as claimed:
"DLC: 4" contains "4". -/
theorem C1_hex_claim_eval :
    (okStateEvent (CanResult.ok ⟨0x123, 4⟩) (readyNode 1)).output
        = ["CAN frame - ID: 0x291", "DLC: 4"]
    ∧ (∀ l ∈ (okStateEvent (CanResult.ok ⟨0x123, 4⟩) (readyNode 1)).output,
        strContains l "0x123" = false)
    ∧ strContains "CAN frame - ID: 0x291" "0x291" = true
    ∧ strContains "DLC: 4" "4" = true := by decide

/-- Claim C2 (confirmed). While the node is running and holds a channel, a
read failure with the `DTC_UNAVAILABLE` code changes nothing: the node
state is unchanged, no fault is activated, nothing is printed — and this
holds for any number of repeated empty polls of the ok-state loop. A read
failure with any other diagnostic code prints the exception message and
activates a fault targeting `NODE_STATE_ERROR`. -/
theorem C2_read_failure_policy (n : CANReaderNode) (ch : CANChannel)
    (h : n.channel = some ch) :
    (∀ m, okStateEvent (CanResult.exn DTC_UNAVAILABLE m) n =
      { node := n, output := [], events := [Event.readCall],
        fault := none, escaped := none, crashed := false })
    ∧ (∀ d m, d ≠ DTC_UNAVAILABLE →
        okStateEvent (CanResult.exn d m) n =
          { node := n, output := [m],
            events := [Event.readCall,
                       Event.activateFaultCall d PsNodeState.NODE_STATE_ERROR],
            fault := some (d, PsNodeState.NODE_STATE_ERROR), escaped := none,
            crashed := false })
    ∧ (∀ env t k,
        (∀ j, j < t → ∃ m, env.readResults (k + j) = CanResult.exn DTC_UNAVAILABLE m) →
        okLoop env k t n =
          { node := n, output := [], events := List.replicate t Event.readCall,
            fault := none, crashed := false }) :=
  ⟨fun m => okStateEvent_unavailable m n ch h,
   fun d m hd => okStateEvent_fatal d m n ch h hd,
   fun env t k hr => okLoop_unavailable env t k n ch h hr⟩

/-- Witness for C2: three consecutive empty polls leave the node untouched. -/
theorem C2_read_failure_policy_witness :
    okStateEvent (CanResult.exn DTC_UNAVAILABLE "empty") (readyNode 1) =
      { node := readyNode 1, output := [], events := [Event.readCall],
        fault := none, escaped := none, crashed := false }
    ∧ okLoop quietEnv 0 3 (readyNode 1) =
      { node := readyNode 1, output := [],
        events := List.replicate 3 Event.readCall, fault := none,
        crashed := false } :=
  ⟨(C2_read_failure_policy (readyNode 1) (readyChannel 1) rfl).1 "empty",
   (C2_read_failure_policy (readyNode 1) (readyChannel 1) rfl).2.2 quietEnv 3 0
     (fun _ _ => ⟨"resource unavailable", rfl⟩)⟩

/-- Claim C3 counterexample. The claim says every initialization failure
(including channel allocation) reports the diagnostic and transitions to
the Error state exactly once. But `new polysync::CANChannel(...)` sits
outside the `try` block of `initStateEvent`: when the allocation throws,
the exception escapes the handler — no fault is activated (zero Error
transitions, not one) and the exception message is never printed by the
node. -/
theorem C3_allocation_counterexample :
    (connectPolySync allocFailEnv 4 (mkCANReaderNode 1)).events.countP isFaultEvent = 0
    ∧ (connectPolySync allocFailEnv 4 (mkCANReaderNode 1)).escaped
        = some (5, "failed to open CAN channel")
    ∧ "failed to open CAN channel"
        ∉ (connectPolySync allocFailEnv 4 (mkCANReaderNode 1)).output := by decide

/-- Claim C3 as amended. Failures during bit-rate configuration or going
on-bus are caught by `initStateEvent`: the exception message is printed, a
fault targeting the Error state is activated exactly once, and no read is
ever attempted. A failure during channel allocation instead escapes the
handler uncaught: no fault is activated, no read is attempted, and the
exception propagates out of `connectPolySync`. -/
theorem C3_init_failure_policy (env : Env) (ticks id : Nat) (d : Dtc) (m : String) :
    (env.allocResult = CanResult.ok () → env.bitRateResult = CanResult.exn d m →
      (connectPolySync env ticks (mkCANReaderNode id)).events.countP isFaultEvent = 1
      ∧ (connectPolySync env ticks (mkCANReaderNode id)).events.countP isReadEvent = 0
      ∧ m ∈ (connectPolySync env ticks (mkCANReaderNode id)).output)
    ∧ (env.allocResult = CanResult.ok () → env.bitRateResult = CanResult.ok () →
       env.onBusResult = CanResult.exn d m →
      (connectPolySync env ticks (mkCANReaderNode id)).events.countP isFaultEvent = 1
      ∧ (connectPolySync env ticks (mkCANReaderNode id)).events.countP isReadEvent = 0
      ∧ m ∈ (connectPolySync env ticks (mkCANReaderNode id)).output)
    ∧ (env.allocResult = CanResult.exn d m →
      (connectPolySync env ticks (mkCANReaderNode id)).events.countP isFaultEvent = 0
      ∧ (connectPolySync env ticks (mkCANReaderNode id)).events.countP isReadEvent = 0
      ∧ (connectPolySync env ticks (mkCANReaderNode id)).escaped = some (d, m)) := by
  refine ⟨fun h1 h2 => ?_, fun h1 h2 h3 => ?_, fun h => ?_⟩
  · rw [connect_bitRateFail env ticks id d m h1 h2]
    exact ⟨rfl, rfl, by simp⟩
  · rw [connect_onBusFail env ticks id d m h1 h2 h3]
    exact ⟨rfl, rfl, by simp⟩
  · rw [connect_allocFail env ticks id d m h]
    exact ⟨rfl, rfl, rfl⟩

/-- Witness for C3 (amended): a concrete bit-rate failure activates the
fault exactly once and prints the message. -/
theorem C3_init_failure_policy_witness :
    (connectPolySync bitRateFailEnv 2 (mkCANReaderNode 3)).events.countP isFaultEvent = 1
    ∧ (connectPolySync bitRateFailEnv 2 (mkCANReaderNode 3)).events.countP isReadEvent = 0
    ∧ "bit rate rejected" ∈ (connectPolySync bitRateFailEnv 2 (mkCANReaderNode 3)).output :=
  (C3_init_failure_policy bitRateFailEnv 2 3 9 "bit rate rejected").1 rfl rfl

/-- Claim C4 counterexample. Both failure cases print a usage hint to
standard output and exit with code 1, but NOT the same message: the
missing-argument branch prints "Must pass CAN channel argument." while the
unparseable-argument branch prints "Invalid argument. ...". -/
theorem C4_usage_counterexample :
    (mainFn ["polysync-can-reader-cpp"] quietHost).exitCode = some 1
    ∧ (mainFn ["polysync-can-reader-cpp", "abc"] quietHost).exitCode = some 1
    ∧ (mainFn ["polysync-can-reader-cpp"] quietHost).output
        ≠ (mainFn ["polysync-can-reader-cpp", "abc"] quietHost).output := by decide

/-- Claim C4 as amended. If no command-line argument is given, or the
argument is not parseable by `std::stoul`, the program prints a usage hint
to standard output and exits with code 1; the two hints share the example
line "For example: polysync-can-reader-cpp 1" but their first lines
differ, so the two messages are not the same. -/
theorem C4_usage_exit (argv : List String) (henv : HostEnv) :
    (argv[1]? = none →
      mainFn argv henv = { exitCode := some 1, output := mustPassMsg, run := none })
    ∧ (∀ a e, argv[1]? = some a → stoul a = Except.error e →
      mainFn argv henv = { exitCode := some 1, output := invalidArgMsg, run := none })
    ∧ mustPassMsg.get? 1 = invalidArgMsg.get? 1
    ∧ mustPassMsg ≠ invalidArgMsg := by
  refine ⟨fun h => ?_, fun a e h he => ?_, by decide, by decide⟩
  · simp [mainFn, h]
  · simp [mainFn, h, he]

/-- Witness for C4 (amended): the concrete failing invocations. -/
theorem C4_usage_exit_witness :
    mainFn ["polysync-can-reader-cpp"] quietHost
      = { exitCode := some 1, output := mustPassMsg, run := none }
    ∧ mainFn ["polysync-can-reader-cpp", "abc"] quietHost
      = { exitCode := some 1, output := invalidArgMsg, run := none } :=
  ⟨(C4_usage_exit ["polysync-can-reader-cpp"] quietHost).1 rfl,
   (C4_usage_exit ["polysync-can-reader-cpp", "abc"] quietHost).2.1 "abc"
     StoulError.invalid_argument rfl rfl⟩

/-- Claim C5 (confirmed). Teardown clears the handle: after
`releaseStateEvent` the channel is always null. When a channel is held the
handler takes it off the bus (one `goOffBus` call) and releases it; when no
channel is held the handler performs no bus call and leaves the node
unchanged. Hence a second teardown is a no-op on the node state. -/
theorem C5_release_idempotent (n : CANReaderNode) :
    (releaseStateEvent n).node.channel = none
    ∧ (∀ ch, n.channel = some ch →
        releaseStateEvent n =
          { node := { n with channel := none },
            output := ["CANReaderNode::releaseStateEvent()"],
            events := [Event.goOffBusCall], fault := none, escaped := none,
            crashed := false })
    ∧ (n.channel = none →
        releaseStateEvent n =
          { node := n, output := ["CANReaderNode::releaseStateEvent()"],
            events := [], fault := none, escaped := none, crashed := false })
    ∧ (releaseStateEvent (releaseStateEvent n).node).node
        = (releaseStateEvent n).node
    ∧ (releaseStateEvent (releaseStateEvent n).node).events = [] := by
  refine ⟨releaseStateEvent_channel_none n,
          fun ch h => releaseStateEvent_held n ch h,
          fun h => releaseStateEvent_empty n h, ?_, ?_⟩
  · rw [releaseStateEvent_empty _ (releaseStateEvent_channel_none n)]
  · rw [releaseStateEvent_empty _ (releaseStateEvent_channel_none n)]

/-- Witness for C5: a node holding a channel, released twice. -/
theorem C5_release_idempotent_witness :
    releaseStateEvent (readyNode 2) =
      { node := { readyNode 2 with channel := none },
        output := ["CANReaderNode::releaseStateEvent()"],
        events := [Event.goOffBusCall], fault := none, escaped := none,
        crashed := false }
    ∧ (releaseStateEvent (releaseStateEvent (readyNode 2)).node).node
        = (releaseStateEvent (readyNode 2)).node :=
  ⟨(C5_release_idempotent (readyNode 2)).2.1 (readyChannel 2) rfl,
   (C5_release_idempotent (readyNode 2)).2.2.2.1⟩

/-- Claim C6 counterexample. The claim says the channel handle is non-null
only between a SUCCESSFUL initialization and teardown, and in particular
that after a failed initialization the node holds no channel. But
`initStateEvent` assigns `_channel` before `goOnBus()`: when going on-bus
throws, the handler activates the fault (the initialization has failed) yet
the node still holds a non-null channel handle. -/
theorem C6_failed_init_counterexample :
    (initStateEvent onBusFailEnv (mkCANReaderNode 1)).fault
        = some (6, PsNodeState.NODE_STATE_ERROR)
    ∧ (initStateEvent onBusFailEnv (mkCANReaderNode 1)).node.channel ≠ none := by decide

/-- Claim C6 as amended. The channel handle is non-null exactly from the
(successful) allocation at the start of `initStateEvent` — whether or not
the subsequent bit-rate configuration and going on-bus succeed — until
teardown clears it: if allocation succeeds the handle is non-null after
`initStateEvent` even when initialization then fails; if allocation throws
the node is unchanged (handle still null); `releaseStateEvent` always
leaves the handle null; and at the end of any complete lifecycle run the
handle is null. -/
theorem C6_handle_lifetime (env : Env) (n : CANReaderNode) :
    (env.allocResult = CanResult.ok () →
      (initStateEvent env n).node.channel.isSome = true)
    ∧ (∀ d m, env.allocResult = CanResult.exn d m → (initStateEvent env n).node = n)
    ∧ (∀ nd, (releaseStateEvent nd).node.channel = none)
    ∧ (∀ ticks id, (connectPolySync env ticks (mkCANReaderNode id)).node.channel = none) :=
  ⟨initStateEvent_channel_isSome env n,
   fun d m h => by rw [initStateEvent_allocFail env n d m h],
   releaseStateEvent_channel_none,
   fun ticks id => (connect_channel_clear env ticks id).1⟩

/-- Witness for C6 (amended): after a concrete on-bus failure the handle is
held, and a full run ends with the handle cleared. -/
theorem C6_handle_lifetime_witness :
    (initStateEvent onBusFailEnv (mkCANReaderNode 2)).node.channel.isSome = true
    ∧ (connectPolySync onBusFailEnv 3 (mkCANReaderNode 2)).node.channel = none :=
  ⟨(C6_handle_lifetime onBusFailEnv (mkCANReaderNode 2)).1 rfl,
   (C6_handle_lifetime onBusFailEnv (mkCANReaderNode 2)).2.2.2 3 2⟩

/-- Claim C7 (confirmed). In every lifecycle run started from a freshly
constructed node for channel `id`, the very first external call is the
single channel-open, with that identifier and the default
`PSYNC_CAN_OPEN_ALLOW_VIRTUAL` flags; no other open occurs in the rest of
the trace (so the open precedes every read call), and every bit-rate
configuration in the trace uses the fixed default `DATARATE_500K`. -/
theorem C7_single_open_before_reads (env : Env) (ticks id : Nat) :
    ∃ rest,
      (connectPolySync env ticks (mkCANReaderNode id)).events
          = Event.openChannel id PSYNC_CAN_OPEN_ALLOW_VIRTUAL :: rest
      ∧ rest.countP isOpenEvent = 0
      ∧ (∀ r, Event.setBitRateCall r ∈ rest → r = DATARATE_500K) := by
  cases ha : env.allocResult with
  | exn d m =>
      rw [connect_allocFail env ticks id d m ha]
      refine ⟨[], rfl, rfl, ?_⟩
      intro r hr
      simp at hr
  | ok a =>
      cases a
      cases hb : env.bitRateResult with
      | exn d m =>
          rw [connect_bitRateFail env ticks id d m ha hb]
          refine ⟨_, rfl, rfl, ?_⟩
          intro r hr
          simpa using hr
      | ok b =>
          cases b
          cases hc : env.onBusResult with
          | exn d m =>
              rw [connect_onBusFail env ticks id d m ha hb hc]
              refine ⟨_, rfl, rfl, ?_⟩
              intro r hr
              simpa using hr
          | ok c =>
              cases c
              obtain ⟨tail, hev, htail0, htailBR⟩ := connect_ok_events env ticks id ha hb hc
              have hlp0 : (okLoop env 0 ticks (readyNode id)).events.countP isOpenEvent = 0 :=
                okLoop_countP_zero isOpenEvent rfl (fun _ => rfl) env ticks 0 (readyNode id)
              refine ⟨[Event.setBitRateCall DATARATE_500K, Event.goOnBusCall]
                        ++ ((okLoop env 0 ticks (readyNode id)).events ++ tail),
                      hev, ?_, ?_⟩
              · simp [List.countP_append, List.countP_cons, isOpenEvent, hlp0, htail0]
              · intro r hr
                rcases List.mem_append.1 hr with h1 | h2
                · simpa using h1
                · rcases List.mem_append.1 h2 with h3 | h4
                  · rcases okLoop_events_shape env ticks 0 (readyNode id) _ h3
                      with h5 | ⟨d, h5⟩ <;> simp at h5
                  · exact absurd h4 (htailBR r)

/-- Witness for C7: a concrete quiet run opens channel 4 first. -/
theorem C7_single_open_before_reads_witness :
    ∃ rest, (connectPolySync quietEnv 2 (mkCANReaderNode 4)).events
        = Event.openChannel 4 PSYNC_CAN_OPEN_ALLOW_VIRTUAL :: rest := by
  obtain ⟨rest, h1, _, _⟩ := C7_single_open_before_reads quietEnv 2 4
  exact ⟨rest, h1⟩

theorem mainFn_run_normal (argv : List String) (henv : HostEnv) (a : String) (v : Nat)
    (h : argv[1]? = some a) (hv : stoul a = Except.ok v)
    (hs : henv.setNodeNameResult = none) :
    (mainFn argv henv).run
      = some (connectPolySync henv.canEnv henv.ticks (mkCANReaderNode (v % 2 ^ 32)))
    ∧ (mainFn argv henv).output.head? = some "CANReaderNode::initStateEvent()" := by
  have hh := connect_output_head henv.canEnv henv.ticks (mkCANReaderNode (v % 2 ^ 32))
  simp only [mainFn, h, hv, hs]
  cases hesc : (connectPolySync henv.canEnv henv.ticks (mkCANReaderNode (v % 2 ^ 32))).escaped with
  | some e =>
      exact ⟨rfl, List.mem_head?_append_of_mem_head? hh⟩
  | none =>
      have hh2 : (connectPolySync henv.canEnv henv.ticks
          (mkCANReaderNode (v % 4294967296))).output.head?
            = some "CANReaderNode::initStateEvent()" := hh
      cases (connectPolySync henv.canEnv henv.ticks (mkCANReaderNode (v % 2 ^ 32))).crashed
        <;> simp [hh, hh2]

/-- Claim C8 (confirmed). The `try` block of `main` wraps the node
construction (including `std::stoul`), `setNodeName`, and
`connectPolySync`; its `catch( std::exception & )` turns every escaping
exception — a parse failure, a `setNodeName` failure, or a `DTCException`
escaping `connectPolySync` — into the same invalid-argument usage message
and exit code 1. Exit code 0 is returned only when parsing succeeded,
`setNodeName` returned, and `connectPolySync` returned without an escaping
exception. -/
theorem C8_catch_all_exit_codes (argv : List String) (henv : HostEnv) (a : String)
    (h : argv[1]? = some a) :
    ((∃ e, stoul a = Except.error e) →
      mainFn argv henv = { exitCode := some 1, output := invalidArgMsg, run := none })
    ∧ (∀ v s, stoul a = Except.ok v → henv.setNodeNameResult = some s →
      mainFn argv henv = { exitCode := some 1, output := invalidArgMsg, run := none })
    ∧ (∀ v e, stoul a = Except.ok v → henv.setNodeNameResult = none →
        (connectPolySync henv.canEnv henv.ticks (mkCANReaderNode (v % 2 ^ 32))).escaped
          = some e →
        mainFn argv henv =
          { exitCode := some 1,
            output :=
              (connectPolySync henv.canEnv henv.ticks (mkCANReaderNode (v % 2 ^ 32))).output
                ++ invalidArgMsg,
            run := some (connectPolySync henv.canEnv henv.ticks
                          (mkCANReaderNode (v % 2 ^ 32))) })
    ∧ ((mainFn argv henv).exitCode = some 0 →
        ∃ v, stoul a = Except.ok v ∧ henv.setNodeNameResult = none
          ∧ (connectPolySync henv.canEnv henv.ticks
              (mkCANReaderNode (v % 2 ^ 32))).escaped = none) := by
  refine ⟨?_, ?_, ?_, ?_⟩
  · rintro ⟨e, he⟩
    simp [mainFn, h, he]
  · intro v s hv hs
    simp [mainFn, h, hv, hs]
  · intro v e hv hs hesc
    simp only [mainFn, h, hv, hs]
    rw [hesc]
  · intro h0
    simp only [mainFn, h] at h0
    cases hv : stoul a with
    | error e => simp [hv] at h0
    | ok v =>
        cases hs : henv.setNodeNameResult with
        | some s => simp [hv, hs] at h0
        | none =>
            cases hesc : (connectPolySync henv.canEnv henv.ticks
                            (mkCANReaderNode (v % 4294967296))).escaped with
            | some e => simp [hv, hs, hesc] at h0
            | none => exact ⟨v, rfl, rfl, hesc⟩

/-- Witness for C8: a concrete `setNodeName` failure yields exit 1 with the
invalid-argument message. -/
theorem C8_catch_all_exit_codes_witness :
    mainFn ["polysync-can-reader-cpp", "7"] throwingHost
      = { exitCode := some 1, output := invalidArgMsg, run := none } :=
  (C8_catch_all_exit_codes ["polysync-can-reader-cpp", "7"] throwingHost "7" rfl).2.1 7
    "node name rejected" rfl rfl

/-- Claim C9 (confirmed). `std::stoul` accepts some arguments that are not
unsigned-integer numerals: "-1" parses successfully (the minus sign negates
in `unsigned long` arithmetic, yielding 2^64 - 1, which the `uint`
constructor parameter then narrows to 2^32 - 1) and "5abc" parses as 5
(trailing characters ignored). In both cases `main` proceeds to construct
and run the node instead of printing a usage message and exiting with
code 1: the node run happens (with the wrapped identifier) and the output
begins with the node's init banner, not with either usage message. -/
theorem C9_stoul_lenient (henv : HostEnv) (h : henv.setNodeNameResult = none) :
    stoul "-1" = Except.ok (2 ^ 64 - 1)
    ∧ stoul "5abc" = Except.ok 5
    ∧ (mainFn ["polysync-can-reader-cpp", "-1"] henv).run
        = some (connectPolySync henv.canEnv henv.ticks (mkCANReaderNode (2 ^ 32 - 1)))
    ∧ (mainFn ["polysync-can-reader-cpp", "5abc"] henv).run
        = some (connectPolySync henv.canEnv henv.ticks (mkCANReaderNode 5))
    ∧ (mainFn ["polysync-can-reader-cpp", "-1"] henv).output ≠ mustPassMsg
    ∧ (mainFn ["polysync-can-reader-cpp", "-1"] henv).output ≠ invalidArgMsg := by
  have hm1 := mainFn_run_normal ["polysync-can-reader-cpp", "-1"] henv "-1"
    18446744073709551615 rfl rfl h
  have hm2 := mainFn_run_normal ["polysync-can-reader-cpp", "5abc"] henv "5abc" 5 rfl rfl h
  refine ⟨rfl, rfl, ?_, ?_, ?_, ?_⟩
  · exact hm1.1
  · exact hm2.1
  · intro heq
    have := hm1.2
    rw [heq] at this
    simp [mustPassMsg] at this
  · intro heq
    have := hm1.2
    rw [heq] at this
    simp [invalidArgMsg] at this

/-- Witness for C9: the quiet host environment. -/
theorem C9_stoul_lenient_witness :
    (mainFn ["polysync-can-reader-cpp", "-1"] quietHost).run
      = some (connectPolySync quietHost.canEnv quietHost.ticks
                (mkCANReaderNode (2 ^ 32 - 1)))
    ∧ (mainFn ["polysync-can-reader-cpp", "-1"] quietHost).output ≠ mustPassMsg :=
  ⟨(C9_stoul_lenient quietHost rfl).2.2.1,
   (C9_stoul_lenient quietHost rfl).2.2.2.2.1⟩

/-- Claim C10 (confirmed). `okStateEvent` dereferences `_channel` with no
null check: it crashes (null dereference) exactly when the handle is null,
and is safe exactly when a handle is held. The precondition holds in the
places the host invokes it: after an `initStateEvent` whose allocation
succeeded the handle is non-null (so the next poll is safe), after
`releaseStateEvent` the handle is null (so a poll there would crash), and
no complete lifecycle run from a freshly constructed node ever crashes —
the host only polls between initialization and teardown. -/
theorem C10_null_deref_precondition (r : CanResult Frame) (n : CANReaderNode) :
    ((okStateEvent r n).crashed = true ↔ n.channel = none)
    ∧ (∀ env, env.allocResult = CanResult.ok () →
        (okStateEvent r (initStateEvent env n).node).crashed = false)
    ∧ (∀ nd, (okStateEvent r (releaseStateEvent nd).node).crashed = true)
    ∧ (∀ env ticks id, (connectPolySync env ticks (mkCANReaderNode id)).crashed = false) := by
  refine ⟨okStateEvent_crashed_iff r n, ?_, ?_,
          fun env ticks id => (connect_channel_clear env ticks id).2⟩
  · intro env h1
    have hsome := initStateEvent_channel_isSome env n h1
    exact (okStateEvent_channel_isSome r (initStateEvent env n).node hsome).2
  · intro nd
    exact (okStateEvent_crashed_iff r (releaseStateEvent nd).node).mpr
      (releaseStateEvent_channel_none nd)

/-- Witness for C10: with a null handle the handler crashes; a concrete
quiet run never crashes. -/
theorem C10_null_deref_precondition_witness :
    (okStateEvent (CanResult.exn DTC_UNAVAILABLE "empty") (mkCANReaderNode 0)).crashed = true
    ∧ (connectPolySync quietEnv 5 (mkCANReaderNode 0)).crashed = false :=
  ⟨(C10_null_deref_precondition (CanResult.exn DTC_UNAVAILABLE "empty")
      (mkCANReaderNode 0)).1.mpr rfl,
   (C10_null_deref_precondition (CanResult.exn DTC_UNAVAILABLE "empty")
      (mkCANReaderNode 0)).2.2.2 quietEnv 5 0⟩
